import Mathlib

/-!
# Verification of the `smpp` SMPP 3.4 protocol engine

A shallow embedding of the Go package `github.com/ajankovic/smpp` (PDU codec,
TLV options, sequencer/encoder, delivery-receipt parser, session state
machine) together with theorems settling the specification claims.

Bytes are modelled as `Nat` values (< 256 where produced by the code's own
casts), byte strings as `List Nat`, Go strings as byte lists or `List Char`
where the source manipulates them as text.
-/

deriving instance DecidableEq for Except

namespace Smpp

/-! ## Byte-level helpers (encoding/binary, big endian) -/

/-- Big-endian 16-bit encoding of `n` (as Go's `binary.BigEndian.PutUint16`,
truncating to 16 bits). -/
def putUint16 (n : Nat) : List Nat :=
  [n % 65536 / 256, n % 256]

/-- Big-endian 32-bit encoding of `n` (as Go's `binary.BigEndian.PutUint32`,
truncating to 32 bits). -/
def putUint32 (n : Nat) : List Nat :=
  [n % 4294967296 / 16777216, n % 16777216 / 65536, n % 65536 / 256, n % 256]

/-- Big-endian 16-bit read from the first two bytes (Go's
`binary.BigEndian.Uint16`; caller guarantees length ≥ 2). -/
def getUint16 (b0 b1 : Nat) : Nat := b0 * 256 + b1

/-- Big-endian 32-bit read (Go's `binary.BigEndian.Uint32`). -/
def getUint32 (b0 b1 b2 b3 : Nat) : Nat :=
  ((b0 * 256 + b1) * 256 + b2) * 256 + b3

/-! ## TLV options (`pdu/options.go`)

Go's `Options` wraps `map[TagID][]byte`.  The map is modelled as an
association list in insertion order; Go map iteration order is unspecified,
so the embedding fixes it to list order (the repository's own tests only
byte-compare option sections with at most one TLV). -/

/-- The `Options` field map: tag ↦ value, insertion-ordered, keys unique. -/
abbrev Options := List (Nat × List Nat)

/-- Go map lookup `o.fields[tag]`. -/
def Options.lookup (o : Options) (tag : Nat) : Option (List Nat) :=
  match o with
  | [] => none
  | (t, v) :: rest => if t = tag then some v else Options.lookup rest tag

/-- Go map assignment `o.fields[tag] = val` (overwrite or append). -/
def Options.insert (o : Options) (tag : Nat) (val : List Nat) : Options :=
  match o with
  | [] => [(tag, val)]
  | (t, v) :: rest =>
      if t = tag then (t, val) :: rest else (t, v) :: Options.insert rest tag val

/-- Result of a typed `Options` accessor: Go returns `(value, ok)` but may
panic on an out-of-range index inside the stored byte slice. -/
inductive GetResult where
  | ok (val : Nat) (present : Bool)
  | panic
  deriving DecidableEq, Repr

/-- `Options.GetSingle`: `val[0]` panics when the stored value is empty. -/
def Options.getSingle (o : Options) (tag : Nat) : GetResult :=
  match o.lookup tag with
  | none => .ok 0 false
  | some v =>
      match v with
      | [] => .panic
      | b :: _ => .ok b true

/-- `Options.GetDouble`: `binary.BigEndian.Uint16(b)` panics when the stored
value is shorter than two bytes. -/
def Options.getDouble (o : Options) (tag : Nat) : GetResult :=
  match o.lookup tag with
  | none => .ok 0 false
  | some (b0 :: b1 :: _) => .ok (getUint16 b0 b1) true
  | some _ => .panic

/-- `Options.MarshalBinary`: concatenation of `tag(u16 BE) ‖ len(u16 BE) ‖
value` records, in map-iteration (here: list) order. -/
def Options.marshal (o : Options) : List Nat :=
  match o with
  | [] => []
  | (t, v) :: rest => putUint16 t ++ putUint16 v.length ++ v ++ Options.marshal rest

/-- Errors of the TLV codec. -/
inductive TlvError where
  | invalidBodyLength
  | invalidFieldLength (tag len : Nat)
  deriving DecidableEq, Repr

/-- The loop of `Options.UnmarshalBinary`, on the remaining buffer suffix.
Mirrors the Go loop: while bytes remain it requires strictly more than 4
bytes (`len(buf)-n <= 4` fails, so the 1–4 byte arms error), reads tag and
declared length, and rejects a declared length overrunning the buffer
(`n+4+l >= len(buf)+1`, i.e. `l > ` remaining value bytes).  `fuel` only
bounds the number of loop iterations; every call keeps `buf.length ≤ fuel`,
so the `fuel = 0` arm with a non-empty buffer is unreachable. -/
def Options.unmarshalAux (fuel : Nat) (fields : Options) (buf : List Nat) :
    Except TlvError Options :=
  match buf with
  | [] => .ok fields
  | b0 :: b1 :: b2 :: b3 :: x :: rest =>
      match fuel with
      | 0 => .error .invalidBodyLength
      | fuel + 1 =>
          let tag := getUint16 b0 b1
          let l := getUint16 b2 b3
          let body := x :: rest
          if body.length < l then .error (.invalidFieldLength tag l)
          else Options.unmarshalAux fuel (fields.insert tag (body.take l))
            (body.drop l)
  | _ => .error .invalidBodyLength

/-- `Options.UnmarshalBinary` on a fresh `Options` map. -/
def Options.unmarshal (buf : List Nat) : Except TlvError Options :=
  Options.unmarshalAux buf.length [] buf

/-! ## Sequencer and encoder (`pdu/constants.go`) -/

/-- `NewSequencer`: the stored starting value (0 is replaced by 1). -/
def newSequencer (n : Nat) : Nat := if n = 0 then 1 else n

/-- `defaultSequencer.Next`: returns the current counter and increments it as
a `uint32` (wrapping at 2^32, not at 0x7FFFFFFF). -/
def sequencerNext (n : Nat) : Nat × Nat := (n, (n + 1) % 4294967296)

/-- Sequencer state after `k` calls to `Next`, starting from state `n`. -/
def sequencerState (n : Nat) : Nat → Nat
  | 0 => n
  | k + 1 => (sequencerNext (sequencerState n k)).2

/-- Value returned by the `(k+1)`-th call to `Next` of a sequencer started at
`n` (0-indexed `k`). -/
def sequencerValue (n k : Nat) : Nat :=
  (sequencerNext (sequencerState n k)).1

/-! ## Time codec (`time/time.go`)

`time.Time` values are modelled as civil date-time records; the Go zero time
is modelled as `none` in `Option TimeVal` (`t.IsZero()`). -/

/-- A concrete time value: civil date-time plus tenths of a second and a zone
offset in seconds (Go `time.Time` up to the precision the codec touches). -/
structure TimeVal where
  year : Int
  month : Nat
  day : Nat
  hour : Nat
  minute : Nat
  second : Nat
  tenths : Nat
  zoneOff : Int
  deriving DecidableEq, Repr

/-- Gregorian leap year. -/
def isLeapYear (y : Int) : Bool :=
  y % 4 = 0 && (y % 100 ≠ 0 || y % 400 = 0)

/-- Days in a month (Go `daysIn`). -/
def daysIn (m : Nat) (y : Int) : Nat :=
  if m = 2 then (if isLeapYear y then 29 else 28)
  else if m = 4 || m = 6 || m = 9 || m = 11 then 30
  else 31

/-- Serial day number of a civil date (days since 1970-01-01, proleptic
Gregorian); used to model Go's normalizing `time.Date`. -/
def daysFromCivil (y : Int) (m : Int) (d : Int) : Int :=
  let y := y - (if m ≤ 2 then 1 else 0)
  let era := (if 0 ≤ y then y else y - 399).tdiv 400
  let yoe := y - era * 400
  let doy := (153 * (m + (if 2 < m then -3 else 9)) + 2).tdiv 5 + d - 1
  let doe := yoe * 365 + yoe.tdiv 4 - yoe.tdiv 100 + doy
  era * 146097 + doe - 719468

/-- Civil date from a serial day number (inverse of `daysFromCivil`). -/
def civilFromDays (z : Int) : Int × Int × Int :=
  let z := z + 719468
  let era := (if 0 ≤ z then z else z - 146096).tdiv 146097
  let doe := z - era * 146097
  let yoe := (doe - doe.tdiv 1460 + doe.tdiv 36524 - doe.tdiv 146096).tdiv 365
  let y := yoe + era * 400
  let doy := doe - (365 * yoe + yoe.tdiv 4 - yoe.tdiv 100)
  let mp := (5 * doy + 2).tdiv 153
  let d := doy - (153 * mp + 2).tdiv 5 + 1
  let m := mp + (if mp < 10 then 3 else -9)
  (y + (if m ≤ 2 then 1 else 0), m, d)

/-- Go `Time.AddDate(y, mo, d)` followed by `Add` of an
`h`-hours/`mi`-minutes/`s`-seconds duration, as in the relative-layout branch
of `Parse` (all deltas non-negative two-digit numbers). -/
def timeAddRelative (t : TimeVal) (y mo d h mi s : Nat) : TimeVal :=
  let m0 : Int := (t.month : Int) + (mo : Int) - 1
  let yy : Int := t.year + (y : Int) + m0.fdiv 12
  let mm : Int := m0.emod 12 + 1
  let serial := daysFromCivil yy mm ((t.day : Int) + (d : Int))
  let clockSec : Nat := t.hour * 3600 + t.minute * 60 + t.second
      + h * 3600 + mi * 60 + s
  let serial := serial + (clockSec / 86400 : Nat)
  let rem := clockSec % 86400
  let (cy, cm, cd) := civilFromDays serial
  { year := cy, month := cm.toNat, day := cd.toNat,
    hour := rem / 3600, minute := rem % 3600 / 60, second := rem % 60,
    tenths := t.tenths, zoneOff := t.zoneOff }

/-- Add tenths of a second to a time (Go `t.Add(d * 100ms)`), carrying into
the clock and date. -/
def timeAddTenths (t : TimeVal) (extra : Nat) : TimeVal :=
  let tot := t.tenths + extra
  let t' := timeAddRelative t 0 0 0 0 0 (tot / 10)
  { t' with tenths := tot % 10 }

/-- Errors of the time codec. -/
inductive TimeError where
  | invalidLayoutLength
  | parseError
  deriving DecidableEq, Repr

/-- One ASCII decimal digit. -/
def parseDigit (b : Nat) : Option Nat :=
  if 48 ≤ b ∧ b ≤ 57 then some (b - 48) else none

/-- Two ASCII decimal digits (Go `time.Parse` fixed two-digit element). -/
def parse2 (b0 b1 : Nat) : Option Nat := do
  let d0 ← parseDigit b0
  let d1 ← parseDigit b1
  pure (d0 * 10 + d1)

/-- Go `time.Parse` two-digit year mapping: `yy ≥ 69 → 19yy`, else `20yy`. -/
def yearFrom2 (yy : Nat) : Int :=
  if 69 ≤ yy then 1900 + yy else 2000 + yy

/-- Range validation performed by Go's `time.Parse` before returning a time:
month in [1,12], day within the month, hour < 24, minute/second < 60. -/
def validateClock (y : Int) (mo d h mi s : Nat) : Bool :=
  1 ≤ mo && mo ≤ 12 && 1 ≤ d && d ≤ daysIn mo y && h ≤ 23 && mi ≤ 59 && s ≤ 59

/-- Go `time.Parse("060102150405", v)` (12 digits, seconds layout), in the
given zone; also the core of `ParseInLocation` in the absolute branch. -/
def goParseSeconds12 (v : List Nat) (zone : Int) : Except TimeError TimeVal :=
  match v with
  | [a0, a1, b0, b1, c0, c1, d0, d1, e0, e1, f0, f1] =>
      match parse2 a0 a1, parse2 b0 b1, parse2 c0 c1, parse2 d0 d1,
          parse2 e0 e1, parse2 f0 f1 with
      | some yy, some mo, some d, some h, some mi, some s =>
          let y := yearFrom2 yy
          if validateClock y mo d h mi s then
            .ok { year := y, month := mo, day := d, hour := h, minute := mi,
                  second := s, tenths := 0, zoneOff := zone }
          else .error .parseError
      | _, _, _, _, _, _ => .error .parseError
  | _ => .error .parseError

/-- Go `time.Parse("0601021504", v)` (10 digits, minutes layout). -/
def goParseMinutes10 (v : List Nat) : Except TimeError TimeVal :=
  match v with
  | [a0, a1, b0, b1, c0, c1, d0, d1, e0, e1] =>
      match parse2 a0 a1, parse2 b0 b1, parse2 c0 c1, parse2 d0 d1,
          parse2 e0 e1 with
      | some yy, some mo, some d, some h, some mi =>
          let y := yearFrom2 yy
          if validateClock y mo d h mi 0 then
            .ok { year := y, month := mo, day := d, hour := h, minute := mi,
                  second := 0, tenths := 0, zoneOff := 0 }
          else .error .parseError
      | _, _, _, _, _ => .error .parseError
  | _ => .error .parseError

/-- Go `time.Parse("20060102150405", v)` (14 digits, four-digit year). -/
def goParseSeconds14 (v : List Nat) : Except TimeError TimeVal :=
  match v with
  | [a0, a1, a2, a3, b0, b1, c0, c1, d0, d1, e0, e1, f0, f1] =>
      match parse2 a0 a1, parse2 a2 a3, parse2 b0 b1, parse2 c0 c1,
          parse2 d0 d1, parse2 e0 e1, parse2 f0 f1 with
      | some yh, some yl, some mo, some d, some h, some mi, some s =>
          let y : Int := (yh * 100 + yl : Nat)
          if validateClock y mo d h mi s then
            .ok { year := y, month := mo, day := d, hour := h, minute := mi,
                  second := s, tenths := 0, zoneOff := 0 }
          else .error .parseError
      | _, _, _, _, _, _, _ => .error .parseError
  | _ => .error .parseError

/-- Go byte expression `(b0-48)*10 + (b1-48)` with uint8 wrap-around, as in
the relative and absolute branches of `Parse`. -/
def byteDigits2 (b0 b1 : Nat) : Nat :=
  ((b0 + 208) % 256 * 10 % 256 + (b1 + 208) % 256) % 256

/-- `smpptime.Parse`: dispatch on input length.  Empty and one-byte inputs
are the zero time (`none`); the 16-char relative layout adds a delta to
`now`, which is passed in explicitly (the Go code reads the clock). -/
def smppTimeParse (now : TimeVal) (input : List Nat) :
    Except TimeError (Option TimeVal) :=
  match input.length with
  | 0 => .ok none
  | 1 => .ok none
  | 12 => (goParseSeconds12 input 0).map some
  | 14 => (goParseSeconds14 input).map some
  | 10 => (goParseMinutes10 input).map some
  | 16 =>
      let ind := input.getD 15 0
      if ind = 82 then  -- 'R': relative layout
        let y := byteDigits2 (input.getD 0 0) (input.getD 1 0)
        let mo := byteDigits2 (input.getD 2 0) (input.getD 3 0)
        let d := byteDigits2 (input.getD 4 0) (input.getD 5 0)
        let h := byteDigits2 (input.getD 6 0) (input.getD 7 0)
        let mi := byteDigits2 (input.getD 8 0) (input.getD 9 0)
        let s := byteDigits2 (input.getD 10 0) (input.getD 11 0)
        .ok (some (timeAddRelative now y mo d h mi s))
      else if ind = 45 ∨ ind = 43 then  -- '-' / '+': absolute layout
        let nn := byteDigits2 (input.getD 13 0) (input.getD 14 0)
        let offset : Int := if ind = 45 then -(nn * 900 : Nat) else (nn * 900 : Nat)
        match goParseSeconds12 (input.take 12) offset with
        | .error e => .error e
        | .ok t => .ok (some (timeAddTenths t ((input.getD 12 0 + 208) % 256)))
      else .error .invalidLayoutLength
  | _ => .error .invalidLayoutLength

/-- ASCII decimal digits of `n` (Go `%d`). -/
def natDecimal (n : Nat) : List Nat :=
  (Nat.toDigits 10 n).map Char.toNat

/-- Two-digit zero-padded ASCII decimal (Go `%02d` and `Format` "06"-style
elements). -/
def pad2 (n : Nat) : List Nat :=
  if n < 10 then [48, 48 + n] else natDecimal n

/-- `smpptime.Format(Absolute, t)`:
`YYMMDDhhmmss` ++ tenths digit ++ two-digit quarter-hour offset ++ sign. -/
def formatAbsolute (t : TimeVal) : List Nat :=
  let sign : Nat := if t.zoneOff.tdiv 900 < 0 then 45 else 43
  let offset : Nat := (t.zoneOff.tdiv 900).natAbs
  pad2 ((t.year.emod 100).toNat) ++ pad2 t.month ++ pad2 t.day ++
    pad2 t.hour ++ pad2 t.minute ++ pad2 t.second ++
    natDecimal t.tenths ++ pad2 offset ++ [sign]

/-- `writeTime(smpptime.Absolute, t)`: empty for the zero time, otherwise the
absolute layout; always NUL-terminated. -/
def writeTimeAbs (t : Option TimeVal) : List Nat :=
  match t with
  | none => [0]
  | some tv => formatAbsolute tv ++ [0]

/-! ## PDU reader helpers (`pduReader` in `pdu/constants.go`) -/

/-- Errors of the PDU codec. -/
inductive PduError where
  | eof
  | invalidCStringLength
  | invalidStringLength
  | readCountMismatch
  | bodyTooShort (n : Nat)
  | timeError (e : TimeError)
  | tlvError (e : TlvError)
  | cStringNotTerminated
  | notSupported
  deriving DecidableEq, Repr

/-- `pduReader.ReadCString(limit)`: bytes up to a NUL; the NUL must occur
within `limit` reads.  Returns the string and the remaining buffer.  `i` is
the iteration counter of the Go loop (starts at 0, incremented on entry). -/
def readCString (limit i : Nat) (buf : List Nat) :
    Except PduError (List Nat × List Nat) :=
  match buf with
  | [] => .error .eof
  | b :: rest =>
      if b = 0 then .ok ([], rest)
      else if i + 1 = limit then .error .invalidCStringLength
      else
        match readCString limit (i + 1) rest with
        | .error e => .error e
        | .ok (out, r) => .ok (b :: out, r)

/-- `pduReader.ReadString(limit)`: one length byte, then that many bytes. -/
def readString (limit : Nat) (buf : List Nat) :
    Except PduError (List Nat × List Nat) :=
  match buf with
  | [] => .error .eof
  | l :: rest =>
      if limit < l then .error .invalidStringLength
      else if l ≤ rest.length then .ok (rest.take l, rest.drop l)
      else if rest.length = 0 then .error .eof
      else .error .readCountMismatch

/-! ## Command IDs (`pdu/constants.go`) -/

/-- The closed set of SMPP command identifiers. -/
inductive CommandID where
  | genericNack
  | bindReceiver | bindReceiverResp
  | bindTransmitter | bindTransmitterResp
  | querySm | querySmResp
  | submitSm | submitSmResp
  | deliverSm | deliverSmResp
  | unbind | unbindResp
  | replaceSm | replaceSmResp
  | cancelSm | cancelSmResp
  | bindTransceiver | bindTransceiverResp
  | outbind
  | enquireLink | enquireLinkResp
  | submitMulti | submitMultiResp
  | alertNotification
  | dataSm | dataSmResp
  deriving DecidableEq, Repr, Fintype

/-- Numeric value of a command identifier. -/
def commandIdVal : CommandID → Nat
  | .genericNack => 0x80000000
  | .bindReceiver => 0x00000001
  | .bindReceiverResp => 0x80000001
  | .bindTransmitter => 0x00000002
  | .bindTransmitterResp => 0x80000002
  | .querySm => 0x00000003
  | .querySmResp => 0x80000003
  | .submitSm => 0x00000004
  | .submitSmResp => 0x80000004
  | .deliverSm => 0x00000005
  | .deliverSmResp => 0x80000005
  | .unbind => 0x00000006
  | .unbindResp => 0x80000006
  | .replaceSm => 0x00000007
  | .replaceSmResp => 0x80000007
  | .cancelSm => 0x00000008
  | .cancelSmResp => 0x80000008
  | .bindTransceiver => 0x00000009
  | .bindTransceiverResp => 0x80000009
  | .outbind => 0x0000000B
  | .enquireLink => 0x00000015
  | .enquireLinkResp => 0x80000015
  | .submitMulti => 0x00000021
  | .submitMultiResp => 0x80000021
  | .alertNotification => 0x00000102
  | .dataSm => 0x00000103
  | .dataSmResp => 0x80000103

/-! ## PDU bodies and their codecs (`pdu/*.go`) -/

/-- `EsmClass`. -/
structure EsmClass where
  mode : Nat
  kind : Nat
  feature : Nat
  deriving DecidableEq, Repr

/-- `EsmClass.Byte`: `mode ∣ kind<<2 ∣ feature<<6` with uint8 casts. -/
def EsmClass.toByte (ec : EsmClass) : Nat :=
  (ec.mode % 256) ||| (ec.kind % 256 * 4 % 256) ||| (ec.feature % 256 * 64 % 256)

/-- `ParseEsmClass`. -/
def parseEsmClass (b : Nat) : EsmClass :=
  { mode := b &&& 0x03, kind := (b >>> 2) &&& 0x0F, feature := b >>> 6 }

/-- `RegisteredDelivery`. -/
structure RegisteredDelivery where
  receipt : Nat
  smeAck : Nat
  interNotification : Nat
  deriving DecidableEq, Repr

/-- `RegisteredDelivery.Byte`. -/
def RegisteredDelivery.toByte (rd : RegisteredDelivery) : Nat :=
  (rd.receipt % 256) ||| (rd.smeAck % 256 * 4 % 256)
    ||| (rd.interNotification % 256 * 16 % 256)

/-- `ParseRegisteredDelivery`. -/
def parseRegisteredDelivery (b : Nat) : RegisteredDelivery :=
  { receipt := b &&& 0x03, smeAck := (b >>> 2) &&& 0x0F,
    interNotification := (b >>> 4) &&& 0x01 }

/-- Mandatory fields shared by `SubmitSm` and `DeliverSm` (identical wire
layout in the source). -/
structure SmBody where
  serviceType : List Nat
  sourceAddrTon : Nat
  sourceAddrNpi : Nat
  sourceAddr : List Nat
  destAddrTon : Nat
  destAddrNpi : Nat
  destinationAddr : List Nat
  esmClass : EsmClass
  protocolID : Nat
  priorityFlag : Nat
  scheduleDeliveryTime : Option TimeVal
  validityPeriod : Option TimeVal
  registeredDelivery : RegisteredDelivery
  replaceIfPresentFlag : Nat
  dataCoding : Nat
  smDefaultMsgID : Nat
  shortMessage : List Nat
  options : Option Options
  deriving DecidableEq, Repr

/-- `SubmitSm.MarshalBinary` / `DeliverSm.MarshalBinary`. -/
def marshalSm (p : SmBody) : List Nat :=
  p.serviceType ++ [0, p.sourceAddrTon % 256, p.sourceAddrNpi % 256] ++
  p.sourceAddr ++ [0, p.destAddrTon % 256, p.destAddrNpi % 256] ++
  p.destinationAddr ++ [0, p.esmClass.toByte, p.protocolID % 256,
    p.priorityFlag % 256] ++
  writeTimeAbs p.scheduleDeliveryTime ++
  writeTimeAbs p.validityPeriod ++
  [p.registeredDelivery.toByte, p.replaceIfPresentFlag % 256,
    p.dataCoding % 256, p.smDefaultMsgID % 256, p.shortMessage.length % 256] ++
  (if 0 < p.shortMessage.length then p.shortMessage else []) ++
  (match p.options with
   | none => []
   | some o => o.marshal)

/-- `SubmitSm.UnmarshalBinary` / `DeliverSm.UnmarshalBinary` (they differ
only in the error strings).  `now` feeds the relative branch of the time
codec, which the Go code resolves by reading the clock. -/
def unmarshalSm (now : TimeVal) (body : List Nat) : Except PduError SmBody := do
  if body.length < 25 then throw (.bodyTooShort body.length)
  let (serviceType, buf) ← readCString 6 0 body
  match buf with
  | srcTon :: srcNpi :: buf =>
    let (sourceAddr, buf) ← readCString 21 0 buf
    match buf with
    | dstTon :: dstNpi :: buf =>
      let (destinationAddr, buf) ← readCString 21 0 buf
      match buf with
      | esm :: proto :: prio :: buf =>
        let (schedStr, buf) ← readCString 17 0 buf
        let sched ← match smppTimeParse now schedStr with
          | .error e => throw (.timeError e)
          | .ok t => pure t
        let (validStr, buf) ← readCString 17 0 buf
        let valid ← match smppTimeParse now validStr with
          | .error e => throw (.timeError e)
          | .ok t => pure t
        match buf with
        | regDel :: repl :: coding :: dfltId :: buf =>
          let (shortMessage, buf) ← readString 254 buf
          let opts ← (if buf.length = 0 then pure none
            else match Options.unmarshal buf with
              | .error e => throw (.tlvError e)
              | .ok o => pure (some o))
          pure { serviceType, sourceAddrTon := srcTon, sourceAddrNpi := srcNpi,
                 sourceAddr, destAddrTon := dstTon, destAddrNpi := dstNpi,
                 destinationAddr, esmClass := parseEsmClass esm,
                 protocolID := proto, priorityFlag := prio,
                 scheduleDeliveryTime := sched, validityPeriod := valid,
                 registeredDelivery := parseRegisteredDelivery regDel,
                 replaceIfPresentFlag := repl, dataCoding := coding,
                 smDefaultMsgID := dfltId, shortMessage, options := opts }
        | _ => throw .eof
      | _ => throw .eof
    | _ => throw .eof
  | _ => throw .eof

/-- Mandatory fields of the bind request family (`BindTx`/`BindRx`/`BindTRx`,
identical wire layout via `marshalBind`/`unmarshalBind`). -/
structure BindBody where
  systemID : List Nat
  password : List Nat
  systemType : List Nat
  interfaceVersion : Nat
  addrTon : Nat
  addrNpi : Nat
  addressRange : List Nat
  deriving DecidableEq, Repr

/-- `marshalBind`. -/
def marshalBind (p : BindBody) : List Nat :=
  p.systemID ++ [0] ++ p.password ++ [0] ++ p.systemType ++
  [0, p.interfaceVersion % 256, p.addrTon % 256, p.addrNpi % 256] ++
  p.addressRange ++ [0]

/-- `unmarshalBind`. -/
def unmarshalBind (body : List Nat) : Except PduError BindBody := do
  if body.length < 7 then throw (.bodyTooShort body.length)
  let (systemID, buf) ← readCString 16 0 body
  let (password, buf) ← readCString 9 0 buf
  let (systemType, buf) ← readCString 13 0 buf
  match buf with
  | iv :: ton :: npi :: buf =>
    let (addressRange, _) ← readCString 41 0 buf
    pure { systemID, password, systemType, interfaceVersion := iv,
           addrTon := ton, addrNpi := npi, addressRange }
  | _ => throw .eof

/-- `cStringOptsRespMarshal`: NUL-terminated string plus optional TLVs; used
by the bind response family and `SubmitSmResp`. -/
def cStringOptsRespMarshal (str : List Nat) (opts : Option Options) : List Nat :=
  str ++ [0] ++ (match opts with
  | none => []
  | some o => o.marshal)

/-- `cStringOptsRespUnmarshal`: scans for the first NUL (failing when there
is none, including on an empty body); a non-empty remainder is parsed as a
TLV section. -/
def cStringOptsRespUnmarshal (body : List Nat) :
    Except PduError (List Nat × Option Options) :=
  let n := body.indexOf 0
  if n < body.length then
    match body.drop (n + 1) with
    | [] => .ok (body.take n, none)
    | b :: rest =>
        match Options.unmarshal (b :: rest) with
        | .error e => .error (.tlvError e)
        | .ok o => .ok (body.take n, some o)
  else .error .cStringNotTerminated

/-- `QuerySm` mandatory fields. -/
structure QuerySmBody where
  messageID : List Nat
  sourceAddrTon : Nat
  sourceAddrNpi : Nat
  sourceAddr : List Nat
  deriving DecidableEq, Repr

/-- `QuerySm.MarshalBinary`. -/
def marshalQuerySm (p : QuerySmBody) : List Nat :=
  p.messageID ++ [0, p.sourceAddrTon % 256, p.sourceAddrNpi % 256] ++
  p.sourceAddr ++ [0]

/-- `QuerySm.UnmarshalBinary`. -/
def unmarshalQuerySm (body : List Nat) : Except PduError QuerySmBody := do
  if body.length < 6 then throw (.bodyTooShort body.length)
  let (messageID, buf) ← readCString 65 0 body
  match buf with
  | ton :: npi :: buf =>
    let (sourceAddr, _) ← readCString 21 0 buf
    pure { messageID, sourceAddrTon := ton, sourceAddrNpi := npi, sourceAddr }
  | _ => throw .eof

/-- `QuerySmResp` mandatory fields. -/
structure QuerySmRespBody where
  messageID : List Nat
  finalDate : Option TimeVal
  messageState : Nat
  errorCode : Nat
  deriving DecidableEq, Repr

/-- `QuerySmResp.MarshalBinary`. -/
def marshalQuerySmResp (p : QuerySmRespBody) : List Nat :=
  p.messageID ++ [0] ++ writeTimeAbs p.finalDate ++
  [p.messageState % 256, p.errorCode % 256]

/-- `QuerySmResp.UnmarshalBinary`. -/
def unmarshalQuerySmResp (now : TimeVal) (body : List Nat) :
    Except PduError QuerySmRespBody := do
  if body.length < 6 then throw (.bodyTooShort body.length)
  let (messageID, buf) ← readCString 65 0 body
  let (dateStr, buf) ← readCString 17 0 buf
  let finalDate ← match smppTimeParse now dateStr with
    | .error e => throw (.timeError e)
    | .ok t => pure t
  match buf with
  | st :: ec :: _ =>
    pure { messageID, finalDate, messageState := st, errorCode := ec }
  | _ => throw .eof

/-- The tagged variant of supported PDUs.  Each arm mirrors a concrete Go
struct.  The Go types that only return "not supported yet" errors
(`ReplaceSm`, `CancelSm`, `Outbind`, `SubmitMulti`, `AlertNotification`,
`DataSm` and their responses) behave identically and are collapsed into
`notSupported` carrying their command identifier. -/
inductive PDU where
  | genericNack
  | bindRx (b : BindBody)
  | bindRxResp (systemID : List Nat) (options : Option Options)
  | bindTx (b : BindBody)
  | bindTxResp (systemID : List Nat) (options : Option Options)
  | bindTRx (b : BindBody)
  | bindTRxResp (systemID : List Nat) (options : Option Options)
  | querySm (q : QuerySmBody)
  | querySmResp (q : QuerySmRespBody)
  | submitSm (b : SmBody)
  | submitSmResp (messageID : List Nat) (options : Option Options)
  | deliverSm (b : SmBody)
  | deliverSmResp (messageID : List Nat)
  | unbind
  | unbindResp
  | enquireLink
  | enquireLinkResp
  | notSupported (id : CommandID)
  deriving DecidableEq, Repr

/-- `PDU.CommandID()`. -/
def PDU.commandID : PDU → CommandID
  | .genericNack => .genericNack
  | .bindRx _ => .bindReceiver
  | .bindRxResp _ _ => .bindReceiverResp
  | .bindTx _ => .bindTransmitter
  | .bindTxResp _ _ => .bindTransmitterResp
  | .bindTRx _ => .bindTransceiver
  | .bindTRxResp _ _ => .bindTransceiverResp
  | .querySm _ => .querySm
  | .querySmResp _ => .querySmResp
  | .submitSm _ => .submitSm
  | .submitSmResp _ _ => .submitSmResp
  | .deliverSm _ => .deliverSm
  | .deliverSmResp _ => .deliverSmResp
  | .unbind => .unbind
  | .unbindResp => .unbindResp
  | .enquireLink => .enquireLink
  | .enquireLinkResp => .enquireLinkResp
  | .notSupported id => id

/-- `MarshalBinary` dispatch over the PDU variant. -/
def pduMarshal : PDU → Except PduError (List Nat)
  | .genericNack => .ok []
  | .bindRx b => .ok (marshalBind b)
  | .bindRxResp s o => .ok (cStringOptsRespMarshal s o)
  | .bindTx b => .ok (marshalBind b)
  | .bindTxResp s o => .ok (cStringOptsRespMarshal s o)
  | .bindTRx b => .ok (marshalBind b)
  | .bindTRxResp s o => .ok (cStringOptsRespMarshal s o)
  | .querySm q => .ok (marshalQuerySm q)
  | .querySmResp q => .ok (marshalQuerySmResp q)
  | .submitSm b => .ok (marshalSm b)
  | .submitSmResp m o => .ok (cStringOptsRespMarshal m o)
  | .deliverSm b => .ok (marshalSm b)
  | .deliverSmResp _ => .ok [0]
  | .unbind => .ok []
  | .unbindResp => .ok []
  | .enquireLink => .ok []
  | .enquireLinkResp => .ok []
  | .notSupported _ => .error .notSupported

/-! ## Encoder (`Encoder.Encode` in `pdu/constants.go`) -/

/-- `Encoder.Encode`: marshal the body, build the 16-byte header with length
`16 + len(body)` (no maximum-length check), pick the sequence number (a zero
`EncodeSeq` option means "draw from the sequencer"), and emit the frame.
Returns the frame bytes, the sequence actually used, and the new sequencer
state. -/
def encoderEncode (p : PDU) (seqState : Nat) (optSeq : Nat) (optStatus : Nat) :
    Except PduError (List Nat × Nat × Nat) :=
  match pduMarshal p with
  | .error e => .error e
  | .ok body =>
      let l := body.length + 16
      let seqUsed := if optSeq = 0 then (sequencerNext seqState).1 else optSeq
      let seqState' := if optSeq = 0 then (sequencerNext seqState).2 else seqState
      .ok (putUint32 l ++ putUint32 (commandIdVal p.commandID) ++
             putUint32 optStatus ++ putUint32 seqUsed ++ body,
           seqUsed, seqState')

/-! ## Decoder (`Decoder.Decode`, `NewPDU`, `header.UnmarshalBinary`) -/

/-- `NewPDU`: the zero value of the struct selected by the command id (the
struct a decoder constructs before unmarshalling the body). -/
def newPDU : CommandID → PDU
  | .genericNack => .genericNack
  | .bindReceiver => .bindRx ⟨[], [], [], 0, 0, 0, []⟩
  | .bindReceiverResp => .bindRxResp [] none
  | .bindTransmitter => .bindTx ⟨[], [], [], 0, 0, 0, []⟩
  | .bindTransmitterResp => .bindTxResp [] none
  | .bindTransceiver => .bindTRx ⟨[], [], [], 0, 0, 0, []⟩
  | .bindTransceiverResp => .bindTRxResp [] none
  | .querySm => .querySm ⟨[], 0, 0, []⟩
  | .querySmResp => .querySmResp ⟨[], none, 0, 0⟩
  | .submitSm => .submitSm ⟨[], 0, 0, [], 0, 0, [], ⟨0, 0, 0⟩, 0, 0,
      none, none, ⟨0, 0, 0⟩, 0, 0, 0, [], none⟩
  | .submitSmResp => .submitSmResp [] none
  | .deliverSm => .deliverSm ⟨[], 0, 0, [], 0, 0, [], ⟨0, 0, 0⟩, 0, 0,
      none, none, ⟨0, 0, 0⟩, 0, 0, 0, [], none⟩
  | .deliverSmResp => .deliverSmResp []
  | .unbind => .unbind
  | .unbindResp => .unbindResp
  | .enquireLink => .enquireLink
  | .enquireLinkResp => .enquireLinkResp
  | id => .notSupported id

/-- `UnmarshalBinary` dispatch: the body codec of the struct selected by the
command id. -/
def pduUnmarshal (now : TimeVal) (id : CommandID) (body : List Nat) :
    Except PduError PDU :=
  match id with
  | .genericNack => .ok .genericNack
  | .bindReceiver => (unmarshalBind body).map .bindRx
  | .bindReceiverResp =>
      (cStringOptsRespUnmarshal body).map fun (s, o) => .bindRxResp s o
  | .bindTransmitter => (unmarshalBind body).map .bindTx
  | .bindTransmitterResp =>
      (cStringOptsRespUnmarshal body).map fun (s, o) => .bindTxResp s o
  | .bindTransceiver => (unmarshalBind body).map .bindTRx
  | .bindTransceiverResp =>
      (cStringOptsRespUnmarshal body).map fun (s, o) => .bindTRxResp s o
  | .querySm => (unmarshalQuerySm body).map .querySm
  | .querySmResp => (unmarshalQuerySmResp now body).map .querySmResp
  | .submitSm => (unmarshalSm now body).map .submitSm
  | .submitSmResp =>
      (cStringOptsRespUnmarshal body).map fun (s, o) => .submitSmResp s o
  | .deliverSm => (unmarshalSm now body).map .deliverSm
  | .deliverSmResp => .ok (.deliverSmResp [])
  | .unbind => .ok .unbind
  | .unbindResp => .ok .unbindResp
  | .enquireLink => .ok .enquireLink
  | .enquireLinkResp => .ok .enquireLinkResp
  | _ => .error .notSupported

/-- The decoded 16-byte PDU header. -/
structure Header where
  length : Nat
  commandID : Nat
  status : Nat
  sequence : Nat
  deriving DecidableEq, Repr

/-- Framing and decode errors (`Decoder.Decode`, `header.UnmarshalBinary`).
`unknownCommandID` models the `panic` in `NewPDU` on an id outside the
closed set. -/
inductive DecodeError where
  | eof
  | lengthBelowMinimum (l : Nat)
  | lengthAboveMaximum (l : Nat)
  | bodyReadShort
  | unknownCommandID (v : Nat)
  | body (e : PduError)
  deriving DecidableEq, Repr

/-- All command identifiers. -/
def allCommandIds : List CommandID :=
  [.genericNack, .bindReceiver, .bindReceiverResp, .bindTransmitter,
   .bindTransmitterResp, .querySm, .querySmResp, .submitSm, .submitSmResp,
   .deliverSm, .deliverSmResp, .unbind, .unbindResp, .replaceSm,
   .replaceSmResp, .cancelSm, .cancelSmResp, .bindTransceiver,
   .bindTransceiverResp, .outbind, .enquireLink, .enquireLinkResp,
   .submitMulti, .submitMultiResp, .alertNotification, .dataSm, .dataSmResp]

/-- Numeric command id back to the closed set (`NewPDU`'s switch). -/
def commandIdOfVal (v : Nat) : Option CommandID :=
  allCommandIds.find? fun id => commandIdVal id = v

/-- `Decoder.Decode` on a byte stream: read the 16-byte header, validate
`16 ≤ length ≤ 4096` (`header.UnmarshalBinary`), construct the zero PDU for
the command id, and — only when `length > 16` — read and unmarshal the body.
A frame with `length = 16` returns the zero-value struct untouched. -/
def decodeFrame (now : TimeVal) (stream : List Nat) :
    Except DecodeError (Header × PDU) :=
  if stream.length < 16 then .error .eof
  else
    let hb := stream.take 16
    let l := getUint32 (hb.getD 0 0) (hb.getD 1 0) (hb.getD 2 0) (hb.getD 3 0)
    if l < 16 then .error (.lengthBelowMinimum l)
    else if 4096 < l then .error (.lengthAboveMaximum l)
    else
      let cidv := getUint32 (hb.getD 4 0) (hb.getD 5 0) (hb.getD 6 0) (hb.getD 7 0)
      let status := getUint32 (hb.getD 8 0) (hb.getD 9 0) (hb.getD 10 0) (hb.getD 11 0)
      let seq := getUint32 (hb.getD 12 0) (hb.getD 13 0) (hb.getD 14 0) (hb.getD 15 0)
      let header : Header := ⟨l, cidv, status, seq⟩
      match commandIdOfVal cidv with
      | none => .error (.unknownCommandID cidv)
      | some cid =>
          if l = 16 then .ok (header, newPDU cid)
          else
            let body := (stream.drop 16).take (l - 16)
            if body.length < l - 16 then .error .bodyReadShort
            else
              match pduUnmarshal now cid body with
              | .error e => .error (.body e)
              | .ok p => .ok (header, p)

/-! ## Session engine (`session.go`) -/

/-- `SessionState`. -/
inductive SessionState where
  | open_
  | binding
  | boundTx
  | boundRx
  | boundTRx
  | unbinding
  | closing
  | closed
  deriving DecidableEq, Repr, Fintype

/-- `SessionType` (ESME = client, SMSC = server). -/
inductive SessionType where
  | esme
  | smsc
  deriving DecidableEq, Repr, Fintype

/-- Kinds of session-level errors produced by `session.go`; the Go code
carries them as `Error{Msg, Temp}` or plain `fmt.Errorf` values. -/
inductive SessErrKind where
  | settingSameState (s : SessionState)
  | invalidNextState (src tgt : SessionState)
  | alreadyClosed
  | invalidState (id : CommandID) (s : SessionState)
  | windowClosed
  | marshal (e : PduError)
  deriving DecidableEq, Repr

/-- A session error: `Temp` mirrors the `Temporary()` interface (plain
`fmt.Errorf` errors are non-temporary). -/
structure SessErr where
  temp : Bool
  kind : SessErrKind
  deriving DecidableEq, Repr

/-- Session configuration fields the embedded operations consult. -/
structure SessConf where
  type : SessionType
  sendWinSize : Nat
  hasStateHook : Bool
  deriving DecidableEq, Repr

/-- The observable session record: configuration, protocol state, the
outstanding-request table (its keys), the encoder's sequencer state, the
frames written to the stream, the trace of state-hook invocations, and
shutdown bookkeeping. -/
structure SessionRec where
  conf : SessConf
  state : SessionState
  sent : List Nat
  encSeq : Nat
  wire : List (List Nat)
  hookLog : List SessionState
  rwcClosed : Bool
  closedSignaled : Bool
  completedOnClose : List Nat
  deriving DecidableEq, Repr

/-- `Session.setState`: rejects a same-state transition, validates the move
against the per-state rules, then stores the new state and fires the state
hook when one is configured. -/
def setState (sess : SessionRec) (st : SessionState) :
    Except SessErr SessionRec :=
  if sess.state = st then
    .error ⟨false, .settingSameState st⟩
  else
    let ok : Bool :=
      match sess.state with
      | .open_ => st == .binding
      | .binding => st == .open_ || st == .boundRx || st == .boundTRx || st == .boundTx
      | .boundRx | .boundTRx | .boundTx => st == .unbinding || st == .closing
      | .unbinding => st == .closing
      | .closing => st == .closed
      | .closed => false
    if sess.state = .closed then
      .error ⟨false, .alreadyClosed⟩
    else if ok then
      .ok { sess with
              state := st,
              hookLog := if sess.conf.hasStateHook then sess.hookLog ++ [st]
                         else sess.hookLog }
    else
      .error ⟨false, .invalidNextState sess.state st⟩

/-- The decision taken by one arm of `makeTransition`'s switch. -/
inductive TransitionRule where
  | stay
  | move (target : SessionState)
  | reject
  deriving DecidableEq, Repr

/-- The pure decision table of `Session.makeTransition`: the nested switch
over role-normalized direction, current state, and command id.  An arm that
`return nil`s is `stay`, an arm that calls `setState` is `move`, and the
final fall-through is `reject`. -/
def transitionRule (t : SessionType) (received : Bool) (s : SessionState)
    (id : CommandID) : TransitionRule :=
  if (t = .esme ∧ ¬received) ∨ (t = .smsc ∧ received) then
    -- sending from ESME or receiving on SMSC
    match s, id with
    | .open_, .bindTransceiver | .open_, .bindTransmitter
    | .open_, .bindReceiver => .move .binding
    | .binding, .genericNack => .move .open_
    | .boundTx, .unbind => .move .unbinding
    | .boundTx, .unbindResp | .boundTx, .deliverSmResp | .boundTx, .dataSm
    | .boundTx, .submitSm | .boundTx, .submitMulti | .boundTx, .dataSmResp
    | .boundTx, .enquireLink | .boundTx, .enquireLinkResp
    | .boundTx, .replaceSm | .boundTx, .genericNack => .stay
    | .boundRx, .unbind => .move .unbinding
    | .boundRx, .unbindResp | .boundRx, .deliverSmResp | .boundRx, .dataSm
    | .boundRx, .dataSmResp | .boundRx, .enquireLink
    | .boundRx, .enquireLinkResp | .boundRx, .genericNack => .stay
    | .boundTRx, .unbind => .move .unbinding
    | .boundTRx, .submitSm | .boundTRx, .submitSmResp
    | .boundTRx, .deliverSmResp | .boundTRx, .dataSm | .boundTRx, .dataSmResp
    | .boundTRx, .enquireLink | .boundTRx, .enquireLinkResp
    | .boundTRx, .submitMulti | .boundTRx, .submitMultiResp
    | .boundTRx, .querySm | .boundTRx, .cancelSm
    | .boundTRx, .genericNack => .stay
    | .unbinding, .unbindResp => .stay
    | _, _ => .reject
  else
    -- sending from SMSC or receiving on ESME
    match s, id with
    | .open_, .outbind => .stay
    | .binding, .bindTransceiverResp => .move .boundTRx
    | .binding, .bindTransmitterResp => .move .boundTx
    | .binding, .bindReceiverResp => .move .boundRx
    | .binding, .genericNack => .move .open_
    | .boundTx, .unbind => .move .unbinding
    | .boundTx, .submitSmResp | .boundTx, .submitMultiResp
    | .boundTx, .dataSm | .boundTx, .dataSmResp | .boundTx, .querySmResp
    | .boundTx, .cancelSmResp | .boundTx, .replaceSmResp
    | .boundTx, .enquireLink | .boundTx, .enquireLinkResp
    | .boundTx, .genericNack => .stay
    | .boundRx, .unbind => .move .unbinding
    | .boundRx, .deliverSm | .boundRx, .dataSm | .boundRx, .dataSmResp
    | .boundRx, .enquireLink | .boundRx, .enquireLinkResp
    | .boundRx, .alertNotification | .boundRx, .genericNack => .stay
    | .boundTRx, .unbind => .move .unbinding
    | .boundTRx, .submitSmResp | .boundTRx, .submitMultiResp
    | .boundTRx, .dataSm | .boundTRx, .dataSmResp | .boundTRx, .deliverSm
    | .boundTRx, .querySmResp | .boundTRx, .cancelSmResp
    | .boundTRx, .alertNotification | .boundTRx, .replaceSmResp
    | .boundTRx, .enquireLink | .boundTRx, .enquireLinkResp
    | .boundTRx, .genericNack => .stay
    | .unbinding, .unbindResp => .stay
    | _, _ => .reject

/-- `Session.makeTransition`: apply the decision table; a `move` goes through
`setState` (which can itself fail, leaving the session untouched); the
fall-through produces the temporary invalid-state error without touching the
session. -/
def makeTransition (sess : SessionRec) (id : CommandID) (received : Bool) :
    SessionRec × Option SessErr :=
  match transitionRule sess.conf.type received sess.state id with
  | .stay => (sess, none)
  | .move target =>
      match setState sess target with
      | .ok sess' => (sess', none)
      | .error e => (sess, some e)
  | .reject => (sess, some ⟨true, .invalidState id sess.state⟩)

/-- The allowed set of `(command_id, direction)` events per state and role:
the pairs for which `makeTransition` has an arm (spec §4.7's transition
table, role-normalized). -/
def allowedEvent (t : SessionType) (received : Bool) (s : SessionState)
    (id : CommandID) : Bool :=
  if (t = .esme ∧ ¬received) ∨ (t = .smsc ∧ received) then
    match s with
    | .open_ => id ∈ [.bindTransceiver, .bindTransmitter, .bindReceiver]
    | .binding => id ∈ [.genericNack]
    | .boundTx => id ∈ [.unbind, .unbindResp, .deliverSmResp, .dataSm,
        .submitSm, .submitMulti, .dataSmResp, .enquireLink, .enquireLinkResp,
        .replaceSm, .genericNack]
    | .boundRx => id ∈ [.unbind, .unbindResp, .deliverSmResp, .dataSm,
        .dataSmResp, .enquireLink, .enquireLinkResp, .genericNack]
    | .boundTRx => id ∈ [.unbind, .submitSm, .submitSmResp, .deliverSmResp,
        .dataSm, .dataSmResp, .enquireLink, .enquireLinkResp, .submitMulti,
        .submitMultiResp, .querySm, .cancelSm, .genericNack]
    | .unbinding => id ∈ [.unbindResp]
    | .closing => False
    | .closed => False
  else
    match s with
    | .open_ => id ∈ [.outbind]
    | .binding => id ∈ [.bindTransceiverResp, .bindTransmitterResp,
        .bindReceiverResp, .genericNack]
    | .boundTx => id ∈ [.unbind, .submitSmResp, .submitMultiResp, .dataSm,
        .dataSmResp, .querySmResp, .cancelSmResp, .replaceSmResp,
        .enquireLink, .enquireLinkResp, .genericNack]
    | .boundRx => id ∈ [.unbind, .deliverSm, .dataSm, .dataSmResp,
        .enquireLink, .enquireLinkResp, .alertNotification, .genericNack]
    | .boundTRx => id ∈ [.unbind, .submitSmResp, .submitMultiResp, .dataSm,
        .dataSmResp, .deliverSm, .querySmResp, .cancelSmResp,
        .alertNotification, .replaceSmResp, .enquireLink, .enquireLinkResp,
        .genericNack]
    | .unbinding => id ∈ [.unbindResp]
    | .closing => False
    | .closed => False

/-- Outcome of the synchronous prefix of `Session.Send` (everything up to
parking on the response channel). -/
inductive SendOutcome where
  | failed (e : SessErr)
  | awaiting (seq : Nat)
  deriving DecidableEq, Repr

/-- `Session.Send` up to its suspension point: reject on a full window
(`len(sent) == SendWinSize`, temporary), validate the state transition,
encode (drawing the next sequence number), record the frame on the wire, and
insert the outstanding-request slot under the assigned sequence. -/
def sessionSend (sess : SessionRec) (req : PDU) : SessionRec × SendOutcome :=
  if sess.sent.length = sess.conf.sendWinSize then
    (sess, .failed ⟨true, .windowClosed⟩)
  else
    match makeTransition sess req.commandID false with
    | (sess', some e) => (sess', .failed e)
    | (sess', none) =>
        match encoderEncode req sess'.encSeq 0 0 with
        | .error e => (sess', .failed ⟨false, .marshal e⟩)
        | .ok (frame, seq, encSeq') =>
            ({ sess' with
                 encSeq := encSeq',
                 wire := sess'.wire ++ [frame],
                 sent := if seq ∈ sess'.sent then sess'.sent
                         else sess'.sent ++ [seq] },
             .awaiting seq)

/-- `Session.Close`: `setState(Closing)`; on success complete and drop every
outstanding slot, close the underlying stream, `setState(Closed)`, and
signal the closed channel.  Each failing `setState` aborts with its error
and leaves the rest of the session untouched. -/
def sessionClose (sess : SessionRec) : SessionRec × Option SessErr :=
  match setState sess .closing with
  | .error e => (sess, some e)
  | .ok s1 =>
      let s2 := { s1 with
                    sent := [],
                    completedOnClose := s1.sent,
                    rwcClosed := true }
      match setState s2 .closed with
      | .error e => (s2, some e)
      | .ok s3 => ({ s3 with closedSignaled := true }, none)

/-! ## Delivery receipt parser (`pdu/receipt.go`)

`ParseDeliveryReceipt` tokenizes the text before `text:` with the regular
expression `(\w+ ?\w+)+:([\w\-]+)` via `FindAllStringSubmatch`.  The
embedding implements that pattern directly as a leftmost-first backtracking
matcher: candidate splits are produced in the engine's preference order
(greedy quantifiers, earlier alternatives first) and the first one that
completes the pattern wins; group 1 captures the last iteration of the
`(\w+ ?\w+)` group. -/

/-- `\w` (RE2: `[0-9A-Za-z_]`). -/
def isWordChar (c : Char) : Bool := c.isAlphanum || c = '_'

/-- `[\w\-]`. -/
def isValueChar (c : Char) : Bool := isWordChar c || c = '-'

/-- The ways `\w+` can match a prefix of `s`, longest first (greedy with
backtracking); each entry is (consumed, rest). -/
def wplusSplits (s : List Char) : List (List Char × List Char) :=
  let run := s.takeWhile isWordChar
  (List.range run.length).map fun i =>
    let k := run.length - i
    (s.take k, s.drop k)

/-- The ways one iteration of `\w+ ?\w+` can match a prefix of `s`, in
backtracking preference order (the optional space is greedy). -/
def gSplits (s : List Char) : List (List Char × List Char) :=
  (wplusSplits s).flatMap fun p =>
    (match p.2 with
     | ' ' :: r2 => (wplusSplits r2).map fun q => (p.1 ++ ' ' :: q.1, q.2)
     | _ => []) ++
    (wplusSplits p.2).map fun q => (p.1 ++ q.1, q.2)

/-- The ways `(\w+ ?\w+)+` can match a prefix of `s`, in preference order
(more iterations preferred); each entry is (capture of the last iteration,
rest). -/
def gplusSplits (fuel : Nat) (s : List Char) : List (List Char × List Char) :=
  match fuel with
  | 0 => []
  | fuel + 1 => (gSplits s).flatMap fun p => gplusSplits fuel p.2 ++ [p]

/-- Match `(\w+ ?\w+)+:([\w\-]+)` anchored at the start of `s`, returning
(group 1, group 2, rest) for the first candidate in preference order. -/
def matchKeyValue (s : List Char) : Option (List Char × List Char × List Char) :=
  (gplusSplits (s.length + 1) s).findSome? fun p =>
    match p.2 with
    | ':' :: r2 =>
        let v := r2.takeWhile isValueChar
        if v.isEmpty then none else some (p.1, v, r2.drop v.length)
    | _ => none

/-- `FindAllStringSubmatch`: scan left to right, taking the leftmost match at
each step and resuming after it. -/
def findAllKeyValue (fuel : Nat) (s : List Char) : List (List Char × List Char) :=
  match fuel with
  | 0 => []
  | fuel + 1 =>
      match s with
      | [] => []
      | _ :: rest =>
          match matchKeyValue s with
          | some (c1, c2, r) => (c1, c2) :: findAllKeyValue fuel r
          | none => findAllKeyValue fuel rest

/-- `strings.Index`: first index at which `needle` occurs in `hay`. -/
def indexOfSub (needle hay : List Char) : Option Nat :=
  match hay with
  | [] => if needle = [] then some 0 else none
  | _ :: rest =>
      if needle.isPrefixOf hay then some 0
      else (indexOfSub needle rest).map (· + 1)

/-- `DeliveryReceipt`; unset dates are the Go zero time (`none`). -/
structure DeliveryReceipt where
  id : List Char
  sub : List Char
  dlvrd : List Char
  submitDate : Option TimeVal
  doneDate : Option TimeVal
  stat : List Char
  err : List Char
  text : List Char
  deriving DecidableEq, Repr

/-- The date parsing used for the `submit date`/`done date` fields:
`time.Parse("0601021504", v)` with a fallback to
`time.Parse("060102150405", v)`.  (The 14-digit `YYYYMMDDhhmmss` layout is
not attempted here.) -/
def recDateParse (v : List Char) : Option TimeVal :=
  match goParseMinutes10 (v.map Char.toNat) with
  | .ok t => some t
  | .error _ =>
      match goParseSeconds12 (v.map Char.toNat) 0 with
      | .ok t => some t
      | .error _ => none

/-- One step of the key-validation loop of `ParseDeliveryReceipt`. -/
def receiptApplyMatch (idx : Nat) (key val : List Char)
    (r : DeliveryReceipt) : Except Unit DeliveryReceipt :=
  match idx with
  | 0 => if key = "id".toList then .ok { r with id := val } else .error ()
  | 1 => if key = "sub".toList then .ok { r with sub := val } else .error ()
  | 2 => if key = "dlvrd".toList then .ok { r with dlvrd := val } else .error ()
  | 3 =>
      if key = "submit date".toList then
        match recDateParse val with
        | some t => .ok { r with submitDate := some t }
        | none => .error ()
      else .error ()
  | 4 =>
      if key = "done date".toList then
        match recDateParse val with
        | some t => .ok { r with doneDate := some t }
        | none => .error ()
      else .error ()
  | 5 => if key = "stat".toList then .ok { r with stat := val } else .error ()
  | 6 => if key = "err".toList then .ok { r with err := val } else .error ()
  | _ => .error ()

/-- The key-validation loop over the token list. -/
def receiptLoop (idx : Nat) (ms : List (List Char × List Char))
    (r : DeliveryReceipt) : Except Unit DeliveryReceipt :=
  match ms with
  | [] => .ok r
  | (key, val) :: rest =>
      match receiptApplyMatch idx key val r with
      | .error e => .error e
      | .ok r' => receiptLoop (idx + 1) rest r'

/-- `ParseDeliveryReceipt`: locate `text:` (or `Text:`), tokenize the prefix
with the key/value pattern, validate the keys in order, parse the two dates,
and keep everything after the marker as the free-form text. -/
def parseDeliveryReceipt (sm : List Char) : Except Unit DeliveryReceipt :=
  match (indexOfSub "text:".toList sm).orElse
      (fun _ => indexOfSub "Text:".toList sm) with
  | none => .error ()
  | some i =>
      let pre := sm.take i
      let ms := findAllKeyValue (pre.length + 1) pre
      match receiptLoop 0 ms
          ⟨[], [], [], none, none, [], [], []⟩ with
      | .error e => .error e
      | .ok r => .ok { r with text := sm.drop (i + 5) }

/-! ## Theorems -/

/-! ### TLV round-trip machinery (claims C5, C10, C8) -/

theorem getUint16_putUint16 (t : Nat) (h : t < 65536) :
    getUint16 (t % 65536 / 256) (t % 256) = t := by
  unfold getUint16; omega

theorem unmarshalAux_step (fuel : Nat) (fields : Options)
    (b0 b1 b2 b3 x : Nat) (rest : List Nat) :
    Options.unmarshalAux (fuel + 1) fields (b0 :: b1 :: b2 :: b3 :: x :: rest) =
      (if (x :: rest).length < getUint16 b2 b3 then
        .error (.invalidFieldLength (getUint16 b0 b1) (getUint16 b2 b3))
      else
        Options.unmarshalAux fuel
          (fields.insert (getUint16 b0 b1) ((x :: rest).take (getUint16 b2 b3)))
          ((x :: rest).drop (getUint16 b2 b3))) := rfl

theorem unmarshalAux_marshal (m : Options) :
    ∀ (fuel : Nat) (fields : Options),
      (∀ p ∈ m, p.1 < 65536 ∧ 1 ≤ p.2.length ∧ p.2.length ≤ 65535) →
      (Options.marshal m).length ≤ fuel →
      Options.unmarshalAux fuel fields (Options.marshal m) =
        .ok (m.foldl (fun acc p => acc.insert p.1 p.2) fields) := by
  induction m with
  | nil =>
      intro fuel fields _ _
      simp [Options.marshal, Options.unmarshalAux]
  | cons hd tl ih =>
      intro fuel fields hvals hfuel
      obtain ⟨t, v⟩ := hd
      obtain ⟨ht, hv1, hv2⟩ := hvals (t, v) (by simp)
      match hv : v with
      | [] => simp [hv] at hv1
      | x :: v' =>
        subst hv
        have hv2' : (x :: v').length ≤ 65535 := hv2
        have hlen : (Options.marshal ((t, x :: v') :: tl)).length =
            4 + (x :: v').length + (Options.marshal tl).length := by
          simp [Options.marshal, putUint16]
          omega
        match fuel with
        | 0 =>
          rw [hlen] at hfuel
          omega
        | fuel + 1 =>
          have hbuf : Options.marshal ((t, x :: v') :: tl) =
              (t % 65536 / 256) :: (t % 256) ::
              ((x :: v').length % 65536 / 256) :: ((x :: v').length % 256) ::
              x :: (v' ++ Options.marshal tl) := by
            simp [Options.marshal, putUint16]
          rw [hbuf, unmarshalAux_step]
          rw [getUint16_putUint16 t ht,
            getUint16_putUint16 (x :: v').length (by omega)]
          rw [if_neg (by simp only [List.length_cons, List.length_append]; omega)]
          have htake : (x :: (v' ++ Options.marshal tl)).take (x :: v').length
              = x :: v' := by
            have : x :: (v' ++ Options.marshal tl) =
                (x :: v') ++ Options.marshal tl := by simp
            rw [this, List.take_left]
          have hdrop : (x :: (v' ++ Options.marshal tl)).drop (x :: v').length
              = Options.marshal tl := by
            have : x :: (v' ++ Options.marshal tl) =
                (x :: v') ++ Options.marshal tl := by simp
            rw [this, List.drop_left]
          rw [htake, hdrop]
          rw [ih fuel (fields.insert t (x :: v'))
            (fun p hp => hvals p (by simp [hp]))
            (by rw [hlen] at hfuel; omega)]
          simp [List.foldl_cons]

theorem insert_eq_append (acc : Options) (t : Nat) (v : List Nat)
    (h : t ∉ acc.map Prod.fst) : acc.insert t v = acc ++ [(t, v)] := by
  induction acc with
  | nil => rfl
  | cons hd tl ih =>
      simp only [List.map_cons, List.mem_cons] at h
      push_neg at h
      simp only [Options.insert, List.cons_append]
      rw [if_neg (fun hh => h.1 hh.symm), ih h.2]

theorem foldl_insert_of_disjoint (m : Options) :
    ∀ (acc : Options), (m.map Prod.fst).Nodup →
      (∀ t ∈ m.map Prod.fst, t ∉ acc.map Prod.fst) →
      m.foldl (fun a p => a.insert p.1 p.2) acc = acc ++ m := by
  induction m with
  | nil => intro acc _ _; simp
  | cons hd tl ih =>
      intro acc hnodup hdis
      obtain ⟨t, v⟩ := hd
      simp only [List.map_cons, List.nodup_cons] at hnodup
      rw [List.foldl_cons]
      rw [insert_eq_append acc t v (hdis t (by simp))]
      rw [ih (acc ++ [(t, v)]) hnodup.2 ?_]
      · simp
      · intro u hu
        simp only [List.map_append, List.mem_append, List.map_cons] at *
        rcases hnodup with ⟨hne, _⟩
        intro hcon
        rcases hcon with h1 | h2
        · exact hdis u (by simp [hu]) h1
        · simp at h2
          subst h2
          exact hne hu

/-- Helper for C5: full `UnmarshalBinary ∘ MarshalBinary` round-trip for maps
with in-range tags and non-empty, in-range values. -/
theorem unmarshal_marshal_of_wellformed (m : Options)
    (hnodup : (m.map Prod.fst).Nodup)
    (hvals : ∀ p ∈ m, p.1 < 65536 ∧ 1 ≤ p.2.length ∧ p.2.length ≤ 65535) :
    Options.unmarshal (Options.marshal m) = .ok m := by
  unfold Options.unmarshal
  rw [unmarshalAux_marshal m (Options.marshal m).length [] hvals le_rfl]
  rw [foldl_insert_of_disjoint m [] hnodup (by simp)]
  simp

/-- C5. The claim asserts `unmarshal (marshal m) = m` for *every* TLV map,
"in particular … when m contains a tag whose value is the empty byte
string".  It fails there: marshalling the one-entry map
`{0x0210 ↦ ""}` produces the 4-byte record `02 10 00 00`, and
`UnmarshalBinary` rejects any iteration with at most 4 remaining bytes
(`len(buf)-n <= 4`), so the final record of a buffer may not have an empty
value. -/
theorem c5_empty_value_roundtrip_fails :
    Options.unmarshal (Options.marshal [(0x0210, [])]) =
      .error .invalidBodyLength ∧
    Options.marshal [(0x0210, [])] = [0x02, 0x10, 0x00, 0x00] := by
  constructor <;> rfl

/-- C5 (amended).  `Options.UnmarshalBinary ∘ Options.MarshalBinary` is the
identity on every finite map whose tags are 16-bit and whose values are
*non-empty* byte strings of length at most 65535; a map containing an
empty value is rejected when that value's record is the last one emitted
(see the counterexample). -/
theorem c5_tlv_roundtrip (m : Options)
    (hnodup : (m.map Prod.fst).Nodup)
    (hvals : ∀ p ∈ m, p.1 < 65536 ∧ 1 ≤ p.2.length ∧ p.2.length ≤ 65535) :
    Options.unmarshal (Options.marshal m) = .ok m :=
  unmarshal_marshal_of_wellformed m hnodup hvals

theorem c5_tlv_roundtrip_witness :
    Options.unmarshal (Options.marshal [(0x0210, [0x34]), (0x0204, [0, 0x6F])]) =
      .ok [(0x0210, [0x34]), (0x0204, [0, 0x6F])] :=
  c5_tlv_roundtrip [(0x0210, [0x34]), (0x0204, [0, 0x6F])]
    (by decide) (by decide)

/-- C10. When a tag is present but its stored value is shorter than the
accessor's width, `GetSingle`/`GetDouble` panic via out-of-range indexing
(`val[0]`, `binary.BigEndian.Uint16`) rather than returning a zero value
with a presence flag; and such short values are reachable through
`Options.UnmarshalBinary`, which accepts zero-length TLV records that are
not the final record of the buffer. -/
theorem c10_short_value_accessor_panics :
    (∀ (o : Options) (tag : Nat), o.lookup tag = some [] →
      o.getSingle tag = .panic) ∧
    (∀ (o : Options) (tag : Nat) (v : List Nat), o.lookup tag = some v →
      v.length < 2 → o.getDouble tag = .panic) ∧
    (Options.unmarshal [0x02, 0x10, 0x00, 0x00, 0x02, 0x04, 0x00, 0x01, 0x00] =
        .ok [(0x0210, []), (0x0204, [0x00])] ∧
      Options.getSingle [(0x0210, []), (0x0204, [0x00])] 0x0210 = .panic ∧
      Options.getDouble [(0x0210, []), (0x0204, [0x00])] 0x0204 = .panic) := by
  refine ⟨?_, ?_, by decide, by decide, by decide⟩
  · intro o tag h
    unfold Options.getSingle
    rw [h]
  · intro o tag v h hlen
    unfold Options.getDouble
    rw [h]
    match v with
    | [] => rfl
    | [b] => rfl
    | b0 :: b1 :: t => exact absurd hlen (by simp only [List.length_cons]; omega)

theorem c10_short_value_accessor_panics_witness :
    Options.getSingle [(0x0210, []), (0x0204, [0x00])] 0x0210 = .panic ∧
    Options.getDouble [(0x0210, []), (0x0204, [0x00])] 0x0204 = .panic :=
  ⟨c10_short_value_accessor_panics.1 [(0x0210, []), (0x0204, [0x00])] 0x0210
      (by decide),
   c10_short_value_accessor_panics.2.1 [(0x0210, []), (0x0204, [0x00])] 0x0204
      [0x00] (by decide) (by decide)⟩

/-! ### Sequencer (claim C3) -/

theorem sequencerState_one (k : Nat) :
    sequencerState 1 k = (1 + k) % 4294967296 := by
  induction k with
  | zero => rfl
  | succ k ih =>
      unfold sequencerState sequencerNext
      rw [ih]
      omega

/-- C3 (counterexample).  The default sequencer does *not* wrap at
`0x7FFFFFFF`: the call after the one returning `0x7FFFFFFF` returns
`0x80000000`, which is neither 1 nor within `[1, 0x7FFFFFFF]` —
`defaultSequencer.Next` only ever executes `seq.n++` on a `uint32`. -/
theorem c3_no_wrap_at_7fffffff :
    sequencerValue 1 0x7FFFFFFE = 0x7FFFFFFF ∧
    sequencerValue 1 0x7FFFFFFF = 0x80000000 ∧
    sequencerValue 1 0x7FFFFFFF ≠ 1 ∧
    ¬sequencerValue 1 0x7FFFFFFF ≤ 0x7FFFFFFF := by
  have h1 : sequencerValue 1 0x7FFFFFFE = 0x7FFFFFFF := by
    unfold sequencerValue sequencerNext
    rw [sequencerState_one]
  have h2 : sequencerValue 1 0x7FFFFFFF = 0x80000000 := by
    unfold sequencerValue sequencerNext
    rw [sequencerState_one]
  refine ⟨h1, h2, ?_, ?_⟩ <;> rw [h2] <;> norm_num

/-- C3 (amended).  The default sequencer starts at 1 and each `Next` call
returns the current counter and increments it as a `uint32`: the `(k+1)`-th
call returns `(1 + k) mod 2^32`.  Values are strictly increasing up to the
`uint32` wrap at `2^32` (not at `0x7FFFFFFF`), so from the `2^31`-th call on
they leave `[1, 0x7FFFFFFF]`. -/
theorem c3_sequencer_closed_form :
    (∀ k, sequencerValue 1 k = (1 + k) % 4294967296) ∧
    sequencerValue 1 0 = 1 ∧
    (∀ k, k + 2 < 4294967296 → sequencerValue 1 (k + 1) = sequencerValue 1 k + 1) := by
  have hval : ∀ k, sequencerValue 1 k = (1 + k) % 4294967296 := by
    intro k
    unfold sequencerValue sequencerNext
    rw [sequencerState_one]
  refine ⟨hval, by rw [hval 0], ?_⟩
  intro k hk
  rw [hval, hval]
  omega

theorem c3_sequencer_closed_form_witness :
    sequencerValue 1 5 = 6 ∧ sequencerValue 1 6 = sequencerValue 1 5 + 1 :=
  ⟨by rw [c3_sequencer_closed_form.1 5],
   c3_sequencer_closed_form.2.2 5 (by norm_num)⟩

/-! ### Session state machine (claims C2, C6) -/

theorem transitionRule_reject_iff :
    ∀ (t : SessionType) (r : Bool) (s : SessionState) (id : CommandID),
      transitionRule t r s id = .reject ↔ allowedEvent t r s id = false := by
  decide

/-- C2.  For every session, command id, and direction such that the
`(command_id, direction)` pair is not in the current state's allowed set for
the session's role, `makeTransition` returns the temporary invalid-state
error and the session — its state, hook trace, and everything else — is
exactly what it was before the call. -/
theorem c2_invalid_transition_rejected (sess : SessionRec) (id : CommandID)
    (received : Bool)
    (h : allowedEvent sess.conf.type received sess.state id = false) :
    makeTransition sess id received =
      (sess, some ⟨true, .invalidState id sess.state⟩) := by
  unfold makeTransition
  rw [(transitionRule_reject_iff sess.conf.type received sess.state id).2 h]

def c2OpenSess : SessionRec :=
  { conf := ⟨.esme, 10, true⟩, state := .open_, sent := [], encSeq := 1,
    wire := [], hookLog := [], rwcClosed := false, closedSignaled := false,
    completedOnClose := [] }

theorem c2_invalid_transition_rejected_witness :
    allowedEvent c2OpenSess.conf.type false c2OpenSess.state .submitSm = false ∧
    makeTransition c2OpenSess .submitSm false =
      (c2OpenSess, some ⟨true, .invalidState .submitSm .open_⟩) :=
  ⟨by decide, c2_invalid_transition_rejected c2OpenSess .submitSm false (by decide)⟩

/-- C6.  Whenever `Send` finds the outstanding-request table already holding
`SendWinSize` entries it fails immediately with the temporary window-closed
error, and the session is returned unchanged: nothing is encoded or written
to the stream, the state does not change, and no table entry is added. -/
theorem c6_send_window_closed (sess : SessionRec) (req : PDU)
    (h : sess.sent.length = sess.conf.sendWinSize) :
    sessionSend sess req = (sess, .failed ⟨true, .windowClosed⟩) := by
  unfold sessionSend
  rw [if_pos h]

def c6FullSess : SessionRec :=
  { conf := ⟨.esme, 1, false⟩, state := .boundTRx, sent := [7], encSeq := 2,
    wire := [], hookLog := [], rwcClosed := false, closedSignaled := false,
    completedOnClose := [] }

theorem c6_send_window_closed_witness :
    c6FullSess.sent.length = c6FullSess.conf.sendWinSize ∧
    sessionSend c6FullSess .enquireLink =
      (c6FullSess, .failed ⟨true, .windowClosed⟩) :=
  ⟨rfl, c6_send_window_closed c6FullSess .enquireLink rfl⟩

/-! ### Session shutdown (claim C7) -/

def c7OpenSess : SessionRec :=
  { conf := ⟨.esme, 10, false⟩, state := .open_, sent := [], encSeq := 1,
    wire := [], hookLog := [], rwcClosed := false, closedSignaled := false,
    completedOnClose := [] }

/-- C7 (counterexample).  `Close` on a session still in the `Open` state does
*not* transition to Closed and return without error: `setState(StateClosing)`
rejects `Open → Closing`, so `Close` returns that error immediately, leaving
the state `Open`, the stream open, and the closed channel unsignalled.  (The
same happens in `Binding`.) -/
theorem c7_close_open_session_fails :
    sessionClose c7OpenSess =
      (c7OpenSess, some ⟨false, .invalidNextState .open_ .closing⟩) ∧
    (sessionClose c7OpenSess).1.state = .open_ ∧
    (sessionClose c7OpenSess).1.rwcClosed = false ∧
    (sessionClose c7OpenSess).1.closedSignaled = false := by
  refine ⟨rfl, rfl, rfl, rfl⟩

/-- C7 (amended).  `Close` succeeds exactly from the bound states and
`Unbinding`: there it runs Closing → Closed, fires the state hook for both
steps, completes and removes every outstanding slot, closes the stream,
signals the closed channel, and returns without error.  From `Closed` it
returns the already-closed error; from `Open`, `Binding`, or `Closing` it
returns a state error and changes nothing. -/
theorem c7_close_by_state (sess : SessionRec) :
    (sess.state = .boundTx ∨ sess.state = .boundRx ∨ sess.state = .boundTRx ∨
        sess.state = .unbinding →
      sessionClose sess =
        ({ sess with
             state := .closed,
             hookLog := sess.hookLog ++
               (if sess.conf.hasStateHook then [.closing, .closed] else []),
             sent := [],
             completedOnClose := sess.sent,
             rwcClosed := true,
             closedSignaled := true }, none)) ∧
    (sess.state = .closed →
      sessionClose sess = (sess, some ⟨false, .alreadyClosed⟩)) ∧
    (sess.state = .open_ →
      sessionClose sess =
        (sess, some ⟨false, .invalidNextState .open_ .closing⟩)) ∧
    (sess.state = .binding →
      sessionClose sess =
        (sess, some ⟨false, .invalidNextState .binding .closing⟩)) ∧
    (sess.state = .closing →
      sessionClose sess = (sess, some ⟨false, .settingSameState .closing⟩)) := by
  obtain ⟨⟨ty, win, hook⟩, st, sent, encSeq, wire, hookLog, rwc, sig, comp⟩ := sess
  cases hook <;> cases st <;>
    simp [sessionClose, setState]

def c7BoundSess : SessionRec :=
  { conf := ⟨.esme, 10, true⟩, state := .boundTRx, sent := [5], encSeq := 3,
    wire := [], hookLog := [.binding, .boundTRx], rwcClosed := false,
    closedSignaled := false, completedOnClose := [] }

theorem c7_close_by_state_witness :
    sessionClose c7BoundSess =
      ({ c7BoundSess with
           state := .closed,
           hookLog := c7BoundSess.hookLog ++ [.closing, .closed],
           sent := [],
           completedOnClose := [5],
           rwcClosed := true,
           closedSignaled := true }, none) :=
  (c7_close_by_state c7BoundSess).1 (Or.inr (Or.inr (Or.inl rfl)))

/-! ### Concrete submit_sm round-trip and framing (claim C1) -/

/-- The spec scenario's submit_sm: empty service type, `source_addr="test"`,
`destination_addr="test2"`, `short_message="msg"`, all other mandatory
fields zero, no options. -/
def c1SubmitSm : SmBody :=
  { serviceType := [], sourceAddrTon := 0, sourceAddrNpi := 0,
    sourceAddr := [0x74, 0x65, 0x73, 0x74],
    destAddrTon := 0, destAddrNpi := 0,
    destinationAddr := [0x74, 0x65, 0x73, 0x74, 0x32],
    esmClass := ⟨0, 0, 0⟩, protocolID := 0, priorityFlag := 0,
    scheduleDeliveryTime := none, validityPeriod := none,
    registeredDelivery := ⟨0, 0, 0⟩, replaceIfPresentFlag := 0,
    dataCoding := 0, smDefaultMsgID := 0,
    shortMessage := [0x6D, 0x73, 0x67], options := none }

/-- The body bytes the spec's hex string
`0000746573740000746573743200000000000000000000036d7367` denotes
(27 bytes). -/
def c1SpecHexBody : List Nat :=
  [0x00, 0x00, 0x74, 0x65, 0x73, 0x74, 0x00, 0x00, 0x74, 0x65, 0x73, 0x74,
   0x32, 0x00, 0x00, 0x00, 0x00, 0x00, 0x00, 0x00, 0x00, 0x00, 0x00, 0x03,
   0x6D, 0x73, 0x67]

/-- The body bytes the code actually emits (29 bytes; the spec's hex drops
one of the two TON/NPI zero bytes before each address). -/
def c1Body : List Nat :=
  [0x00, 0x00, 0x00, 0x74, 0x65, 0x73, 0x74, 0x00, 0x00, 0x00, 0x74, 0x65,
   0x73, 0x74, 0x32, 0x00, 0x00, 0x00, 0x00, 0x00, 0x00, 0x00, 0x00, 0x00,
   0x00, 0x03, 0x6D, 0x73, 0x67]

/-- C1 (counterexample).  Marshalling the scenario's submit_sm does not
produce the spec's 27-byte hex string: the wire format has
`source_addr_ton`/`source_addr_npi` and `dest_addr_ton`/`dest_addr_npi`
byte pairs, so the body is 29 bytes and the frame length is 45 — consistent
with the spec's own `0x2D` length word, which the 27-byte hex contradicts. -/
theorem c1_spec_hex_mismatch :
    marshalSm c1SubmitSm ≠ c1SpecHexBody ∧
    c1SpecHexBody.length + 16 ≠ 45 := by
  refine ⟨by decide, by decide⟩

/-- C1 (amended).  The scenario's submit_sm marshals to the 29-byte body
`00 00 00 74657374 00 00 00 7465737432 00 ... 03 6d7367`; framing it with
sequence 1 and status OK yields a 45-byte frame whose first 16 bytes are
`0000002D 00000004 00000000 00000001`; and decoding that body returns the
original struct. -/
theorem c1_submit_roundtrip_framing :
    marshalSm c1SubmitSm = c1Body ∧
    c1Body.length = 29 ∧
    (∀ seqState, encoderEncode (.submitSm c1SubmitSm) seqState 1 0 =
      .ok (putUint32 45 ++ putUint32 4 ++ putUint32 0 ++ putUint32 1 ++ c1Body,
        1, seqState)) ∧
    (putUint32 45 ++ putUint32 4 ++ putUint32 0 ++ putUint32 1 ++ c1Body).length
      = 45 ∧
    (putUint32 45 ++ putUint32 4 ++ putUint32 0 ++ putUint32 1 ++ c1Body).take 16
      = [0x00, 0x00, 0x00, 0x2D, 0x00, 0x00, 0x00, 0x04,
         0x00, 0x00, 0x00, 0x00, 0x00, 0x00, 0x00, 0x01] ∧
    (∀ now, unmarshalSm now c1Body = .ok c1SubmitSm) := by
  refine ⟨by decide, by decide, fun seqState => rfl, by decide, by decide,
    fun now => rfl⟩

/-! ### Encoder length word and missing maximum check (claim C4) -/

/-- C4 (amended).  `Encoder.Encode` performs *no* maximum-length check:
whenever the body marshals, it writes a frame whose emitted length word and
total length are `16 + len(body)` — also when that exceeds the 4096-byte
maximum, which is only enforced on the decode side
(`header.UnmarshalBinary`). -/
theorem c4_encode_length_word (p : PDU) (seqState optSeq status : Nat)
    (body : List Nat) (h : pduMarshal p = .ok body) :
    ∃ frame seqUsed seqState',
      encoderEncode p seqState optSeq status = .ok (frame, seqUsed, seqState') ∧
      frame.take 4 = putUint32 (body.length + 16) ∧
      frame.length = body.length + 16 := by
  unfold encoderEncode
  rw [h]
  refine ⟨_, _, _, rfl, ?_, ?_⟩
  · have h4 : (4 : Nat) = (putUint32 (body.length + 16)).length := rfl
    rw [h4]
    simp only [List.append_assoc]
    rw [List.take_left]
  · simp [putUint32]

theorem c4_encode_length_word_witness :
    ∃ frame seqUsed seqState',
      encoderEncode .unbind 1 0 0 = .ok (frame, seqUsed, seqState') ∧
      frame.take 4 = putUint32 (([] : List Nat).length + 16) ∧
      frame.length = ([] : List Nat).length + 16 :=
  c4_encode_length_word .unbind 1 0 0 [] rfl

def c4BigResp : PDU := .submitSmResp (List.replicate 4090 0x61) none

def c4BigBody : List Nat := List.replicate 4090 0x61 ++ [0]

/-- C4 (counterexample).  A submit_sm_resp with a 4090-byte message id
marshals to a 4091-byte body, and `Encode` *accepts* it, writing a frame
whose length word is 4107 > 4096 instead of failing at encode time. -/
theorem c4_oversize_frame_encoded :
    pduMarshal c4BigResp = .ok c4BigBody ∧
    c4BigBody.length + 16 = 4107 ∧
    4096 < 4107 ∧
    encoderEncode c4BigResp 1 1 0 =
      .ok (putUint32 4107 ++ putUint32 0x80000004 ++ putUint32 0 ++
        putUint32 1 ++ c4BigBody, 1, 1) := by
  have hbody : pduMarshal c4BigResp = .ok c4BigBody := by
    show Except.ok (List.replicate 4090 0x61 ++ [0] ++ []) = .ok c4BigBody
    rw [List.append_nil, c4BigBody]
  have hlen : c4BigBody.length + 16 = 4107 := by
    unfold c4BigBody
    rw [List.length_append, List.length_replicate]
    rfl
  refine ⟨hbody, hlen, by norm_num, ?_⟩
  unfold encoderEncode
  rw [hbody]
  norm_num
  rw [hlen]
  rfl

/-! ### Bind response bodies (claim C8) -/

theorem indexOf_append_zero (sysid rest : List Nat) (h : (0 : Nat) ∉ sysid) :
    (sysid ++ 0 :: rest).indexOf 0 = sysid.length := by
  induction sysid with
  | nil => simp
  | cons b tl ih =>
      simp only [List.mem_cons] at h
      push_neg at h
      rw [List.cons_append, List.indexOf_cons_ne _ (fun hb => h.1 hb.symm),
        ih h.2, List.length_cons]

/-- C8 (counterexample).  Unmarshalling a bind response from an empty body
does *not* succeed with an empty system_id: `cStringOptsRespUnmarshal` finds
no NUL terminator and fails ("c string is not terminated"). -/
theorem c8_empty_body_fails :
    cStringOptsRespUnmarshal ([] : List Nat) = .error .cStringNotTerminated :=
  rfl

/-- C8 (amended).  `UnmarshalBinary` of the bind response family fails on an
empty (zero-length) body; an empty system_id with no options arises from a
body of a single NUL byte — or at the framing layer, where `Decoder.Decode`
skips body unmarshalling entirely for a frame of length 16 and returns the
zero-value struct.  A body of a NUL-terminated system_id followed by TLV
bytes decodes both the system_id and the options. -/
theorem c8_bind_resp_unmarshal :
    cStringOptsRespUnmarshal ([] : List Nat) = .error .cStringNotTerminated ∧
    cStringOptsRespUnmarshal [0] = .ok ([], none) ∧
    (∀ now, decodeFrame now
        [0x00, 0x00, 0x00, 0x10, 0x80, 0x00, 0x00, 0x09,
         0x00, 0x00, 0x00, 0x00, 0x00, 0x00, 0x00, 0x01] =
      .ok (⟨16, 0x80000009, 0, 1⟩, .bindTRxResp [] none)) ∧
    (∀ (sysid : List Nat) (m : Options), (0 : Nat) ∉ sysid → m ≠ [] →
      (m.map Prod.fst).Nodup →
      (∀ p ∈ m, p.1 < 65536 ∧ 1 ≤ p.2.length ∧ p.2.length ≤ 65535) →
      cStringOptsRespUnmarshal (sysid ++ 0 :: Options.marshal m) =
        .ok (sysid, some m)) := by
  refine ⟨rfl, rfl, fun now => rfl, ?_⟩
  intro sysid m h0 hne hnodup hvals
  have hidx : (sysid ++ 0 :: Options.marshal m).indexOf 0 = sysid.length :=
    indexOf_append_zero sysid (Options.marshal m) h0
  have htake : (sysid ++ 0 :: Options.marshal m).take sysid.length = sysid :=
    List.take_left sysid _
  have hdrop : (sysid ++ 0 :: Options.marshal m).drop (sysid.length + 1) =
      Options.marshal m := by
    rw [← List.drop_drop, List.drop_left]
    rfl
  match m with
  | [] => exact absurd rfl hne
  | (t, v) :: m' =>
    obtain ⟨ht, hv1, hv2⟩ := hvals (t, v) (by simp)
    match v with
    | [] => simp at hv1
    | x :: v' =>
      have hcons : Options.marshal ((t, x :: v') :: m') =
          (t % 65536 / 256) :: (t % 256) ::
          ((x :: v').length % 65536 / 256) :: ((x :: v').length % 256) ::
          x :: (v' ++ Options.marshal m') := by
        simp [Options.marshal, putUint16]
      have hok : Options.unmarshal (Options.marshal ((t, x :: v') :: m')) =
          .ok ((t, x :: v') :: m') :=
        unmarshal_marshal_of_wellformed _ hnodup hvals
      rw [hcons] at hok
      simp only [cStringOptsRespUnmarshal]
      rw [hidx, if_pos (by simp), htake, hdrop, hcons]
      simp only [hok]

def c8DemoBody : List Nat :=
  [0x74, 0x65, 0x73, 0x74] ++ 0 :: Options.marshal [(0x0210, [0x34])]

theorem c8_bind_resp_unmarshal_witness :
    cStringOptsRespUnmarshal c8DemoBody =
      .ok ([0x74, 0x65, 0x73, 0x74], some [(0x0210, [0x34])]) :=
  c8_bind_resp_unmarshal.2.2.2 [0x74, 0x65, 0x73, 0x74] [(0x0210, [0x34])]
    (by decide) (by decide) (by decide) (by decide)

/-! ### Delivery receipt date layouts (claim C9) -/

/-- The spec's UUID receipt, dates in the 12-digit `YYMMDDhhmmss` layout. -/
def c9Receipt12 : List Char :=
  ("id:a03ea27b-9bb4-4d5e-b87f-3f578ab46153 sub:001 dlvrd:001 " ++
   "submit date:161003211236 done date:161003211236 stat:DELIVRD " ++
   "err:000 text:-").toList

/-- The same receipt with 10-digit `YYMMDDhhmm` dates. -/
def c9Receipt10 : List Char :=
  ("id:a03ea27b-9bb4-4d5e-b87f-3f578ab46153 sub:001 dlvrd:001 " ++
   "submit date:1610032112 done date:1610032112 stat:DELIVRD " ++
   "err:000 text:-").toList

/-- The same receipt with 14-digit `YYYYMMDDhhmmss` dates. -/
def c9Receipt14 : List Char :=
  ("id:a03ea27b-9bb4-4d5e-b87f-3f578ab46153 sub:001 dlvrd:001 " ++
   "submit date:20161003211236 done date:20161003211236 stat:DELIVRD " ++
   "err:000 text:-").toList

set_option maxRecDepth 8000 in
/-- C9 (counterexample).  A receipt that is well-formed in every other
respect but uses the 14-digit `YYYYMMDDhhmmss` date layout is *rejected*:
`ParseDeliveryReceipt` only tries `time.Parse` with the 10-digit and
12-digit layouts (`recDateLayout`, `secRecDateLayout`); the 14-digit layout
is accepted only by the separate `smpp/time` codec. -/
theorem c9_fourteen_digit_rejected :
    parseDeliveryReceipt c9Receipt14 = .error () := by
  decide

set_option maxRecDepth 8000 in
/-- C9 (amended).  `ParseDeliveryReceipt` accepts the `YYMMDDhhmm` and
`YYMMDDhhmmss` date layouts in the submit/done date fields (returning the
corresponding times), but rejects the `YYYYMMDDhhmmss` layout with
`InvalidReceiptFormat`. -/
theorem c9_receipt_date_layouts :
    parseDeliveryReceipt c9Receipt12 =
      .ok { id := "a03ea27b-9bb4-4d5e-b87f-3f578ab46153".toList,
            sub := "001".toList, dlvrd := "001".toList,
            submitDate := some ⟨2016, 10, 3, 21, 12, 36, 0, 0⟩,
            doneDate := some ⟨2016, 10, 3, 21, 12, 36, 0, 0⟩,
            stat := "DELIVRD".toList, err := "000".toList,
            text := "-".toList } ∧
    parseDeliveryReceipt c9Receipt10 =
      .ok { id := "a03ea27b-9bb4-4d5e-b87f-3f578ab46153".toList,
            sub := "001".toList, dlvrd := "001".toList,
            submitDate := some ⟨2016, 10, 3, 21, 12, 0, 0, 0⟩,
            doneDate := some ⟨2016, 10, 3, 21, 12, 0, 0, 0⟩,
            stat := "DELIVRD".toList, err := "000".toList,
            text := "-".toList } ∧
    parseDeliveryReceipt c9Receipt14 = .error () := by
  refine ⟨by decide, by decide, by decide⟩

end Smpp
